import Mathlib

/-!
Verification of the transaction layer in db/db.go (package db of
brunotm/statement).

The Go code is shallowly embedded below.  A transaction handle Tx owns a
done flag, a maphash.Hash (a per handle seed plus a byte buffer), and a
result cache mapping a 64 bit fingerprint to the reflect.Value stored by
reflect.ValueOf(dst).Elem() — which is a reference to the memory of the
destination argument, not a copy of it.  To render that aliasing, caller
destinations live in an explicit heap of addresses, and the cache maps a
fingerprint to an address.  Row sets and decoded values are opaque natural
numbers.  The underlying sql.Tx and the scan.Load collaborator are a
deterministic oracle (structure Driver).  Each operation returns, besides
the new state and its outcome, the list of log events it emitted, the list
of calls it issued to the underlying transaction, and the list of
lock/unlock events it performed on the mutex t.mu.
-/

namespace DbTx

/-- One instrumentation event passed to the Logger callback: message,
transaction id, the error value (none models a nil error), and the query
text argument.  The elapsed duration is not modelled. -/
structure LogEvent where
  message : String
  tid : String
  err : Option String
  query : String
  deriving Repr, DecidableEq

/-- One call issued to the underlying sql.Tx. -/
inductive DriverCall where
  | exec (q : String)
  | query (q : String)
  | commit
  | rollback
  deriving Repr, DecidableEq

/-- Lock and unlock events on the handle mutex t.mu, in program order. -/
inductive MutexEv where
  | lock
  | unlock
  deriving Repr, DecidableEq

/-- Outcome of one operation: a normal return carrying a value, a normal
return carrying a Go error, or a fatal runtime fault of the Go runtime
(sync.Mutex.Unlock on an unlocked mutex is fatal). -/
inductive Outcome (α : Type) where
  | ok (a : α)
  | err (e : String)
  | crash (msg : String)
  deriving Repr, DecidableEq

/-- The error value an operation returns: none for a normal success. -/
def Outcome.errOf {α : Type} : Outcome α → Option String
  | .ok _ => none
  | .err e => some e
  | .crash _ => none

/-- Deterministic oracle for the underlying transaction and for scan.Load:
execRes and queryRes model tx.ExecContext and tx.QueryContext on a given
query text, scanRes models decoding a row set into the destination,
commitRes and rollbackRes model tx.Commit and tx.Rollback. -/
structure Driver where
  execRes : String → Except String Nat
  queryRes : String → Except String (List Nat)
  scanRes : List Nat → Except String Nat
  commitRes : Except String Unit
  rollbackRes : Except String Unit

/-- Association list lookup (models Go map read m[k]). -/
def lookupA : List (Nat × Nat) → Nat → Option Nat
  | [], _ => none
  | (k, v) :: rest, key => if k = key then some v else lookupA rest key

/-- Association list update (models Go map write m[k] = v, and a heap
write through an address). -/
def updateA : List (Nat × Nat) → Nat → Nat → List (Nat × Nat)
  | [], key, v => [(key, v)]
  | (k, w) :: rest, key, v =>
      if k = key then (k, v) :: rest else (k, w) :: updateA rest key v

/-- State of one transaction handle Tx, together with the heap of caller
destination memory.  tid, done, cache mirror the Go fields; seed and
hashBuf mirror the maphash.Hash state (its seed, fixed for the lifetime of
the handle, and the bytes written since the last Reset); heap gives the
value currently stored at each destination address. -/
structure TxState where
  tid : String
  done : Bool
  seed : Nat
  hashBuf : String
  cache : List (Nat × Nat)
  heap : List (Nat × Nat)
  deriving Repr, DecidableEq

/-- Result of running one operation of the handle. -/
structure OpResult (α : Type) where
  state : TxState
  out : Outcome α
  logs : List LogEvent
  calls : List DriverCall
  mutex : List MutexEv
  deriving Repr, DecidableEq

/-- A statement collaborator: stmt.String() either resolves to the literal
query text or fails. -/
abbrev Stmt := Except String String

instance : DecidableEq Stmt := fun a b =>
  match a, b with
  | .error x, .error y =>
      if h : x = y then .isTrue (by rw [h]) else .isFalse (by simp [h])
  | .error _, .ok _ => .isFalse (by simp)
  | .ok _, .error _ => .isFalse (by simp)
  | .ok x, .ok y =>
      if h : x = y then .isTrue (by rw [h]) else .isFalse (by simp [h])

/-- Rendering of fmt.Sprintf applied to the statement in the build failure
log line of Tx.Query. -/
def stmtRepr : Stmt → String
  | .error e => "stmt.error " ++ e
  | .ok q => "stmt.ok " ++ q

/-- Fingerprint computed in Tx.Query: t.hash.WriteString(query) appends to
the buffer and t.hash.Sum64() is a function hf of the per handle seed and
of the buffer content.  maphash writes never fail. -/
def fingerprint (hf : Nat → String → Nat) (s : TxState) (q : String) : Nat :=
  hf s.seed (s.hashBuf ++ q)

/-- Tx.Exec.  The code locks t.mu and defers an unlock; when stmt.String()
fails it also unlocks explicitly before returning, so the deferred unlock
then runs on an unlocked mutex — a fatal runtime error in Go.  Otherwise
it calls tx.ExecContext and logs db.tx.exec unconditionally, with the
error value of the call. -/
def Tx.exec (d : Driver) (s : TxState) (stmt : Stmt) : OpResult Nat :=
  match stmt with
  | .error _e =>
      { state := s
        out := .crash "sync: unlock of unlocked mutex"
        logs := []
        calls := []
        mutex := [.lock, .unlock, .unlock] }
  | .ok query =>
      match d.execRes query with
      | .ok r =>
          { state := s
            out := .ok r
            logs := [⟨"db.tx.exec", s.tid, none, query⟩]
            calls := [.exec query]
            mutex := [.lock, .unlock] }
      | .error e =>
          { state := s
            out := .err e
            logs := [⟨"db.tx.exec", s.tid, some e, query⟩]
            calls := [.exec query]
            mutex := [.lock, .unlock] }

/-- Tx.Query, written into destination address dst.  Steps of the code:
resolve the statement (on failure log db.tx.query.build and return);
write the query into the hash, take Sum64 as the key, reset the hash;
on a cache hit copy the value currently referenced by the cached
reflect.Value into dst, log db.tx.query.cached and return nil;
otherwise call tx.QueryContext (on failure return the error without any
log), then scan.Load into dst (on failure return the error without any
log); on success err is nil, so the code logs db.tx.query.cache.add,
stores reflect.ValueOf(dst).Elem() — the address dst — in the cache and
returns nil; the trailing db.tx.query log line is unreachable. -/
def Tx.query (hf : Nat → String → Nat) (d : Driver) (s : TxState)
    (dst : Nat) (stmt : Stmt) : OpResult Unit :=
  match stmt with
  | .error e =>
      { state := s
        out := .err e
        logs := [⟨"db.tx.query.build", s.tid, some e, stmtRepr (.error e)⟩]
        calls := []
        mutex := [.lock, .unlock] }
  | .ok query =>
      match lookupA s.cache (fingerprint hf s query) with
      | some a =>
          { state := { s with
              hashBuf := ""
              heap := updateA s.heap dst ((lookupA s.heap a).getD 0) }
            out := .ok ()
            logs := [⟨"db.tx.query.cached", s.tid, none, query⟩]
            calls := []
            mutex := [.lock, .unlock] }
      | none =>
          match d.queryRes query with
          | .error e =>
              { state := { s with hashBuf := "" }
                out := .err e
                logs := []
                calls := [.query query]
                mutex := [.lock, .unlock] }
          | .ok rows =>
              match d.scanRes rows with
              | .error e =>
                  { state := { s with hashBuf := "" }
                    out := .err e
                    logs := []
                    calls := [.query query]
                    mutex := [.lock, .unlock] }
              | .ok v =>
                  { state := { s with
                      hashBuf := ""
                      heap := updateA s.heap dst v
                      cache := updateA s.cache (fingerprint hf s query) dst }
                    out := .ok ()
                    logs := [⟨"db.tx.query.cache.add", s.tid, none, query⟩]
                    calls := [.query query]
                    mutex := [.lock, .unlock] }

/-- Tx.Commit: calls tx.Commit unconditionally (the done flag is not
consulted), sets done regardless of the outcome, and logs db.tx.commit
with the error value. -/
def Tx.commit (d : Driver) (s : TxState) : OpResult Unit :=
  match d.commitRes with
  | .ok _ =>
      { state := { s with done := true }
        out := .ok ()
        logs := [⟨"db.tx.commit", s.tid, none, ""⟩]
        calls := [.commit]
        mutex := [.lock, .unlock] }
  | .error e =>
      { state := { s with done := true }
        out := .err e
        logs := [⟨"db.tx.commit", s.tid, some e, ""⟩]
        calls := [.commit]
        mutex := [.lock, .unlock] }

/-- Tx.Rollback: when done is already set it returns nil at once, with no
driver call and no log event; otherwise it calls tx.Rollback, sets done
and logs db.tx.rollback with the error value. -/
def Tx.rollback (d : Driver) (s : TxState) : OpResult Unit :=
  if s.done then
    { state := s
      out := .ok ()
      logs := []
      calls := []
      mutex := [.lock, .unlock] }
  else
    match d.rollbackRes with
    | .ok _ =>
        { state := { s with done := true }
          out := .ok ()
          logs := [⟨"db.tx.rollback", s.tid, none, ""⟩]
          calls := [.rollback]
          mutex := [.lock, .unlock] }
    | .error e =>
        { state := { s with done := true }
          out := .err e
          logs := [⟨"db.tx.rollback", s.tid, some e, ""⟩]
          calls := [.rollback]
          mutex := [.lock, .unlock] }

/-- One step of a client trace against a handle: an operation of Tx, or a
caller mutating the destination it owns at address a. -/
inductive Op where
  | exec (stmt : Stmt)
  | query (dst : Nat) (stmt : Stmt)
  | commit
  | rollback
  | mutate (a v : Nat)
  deriving Repr, DecidableEq

/-- State reached after one step of a trace. -/
def Tx.step (hf : Nat → String → Nat) (d : Driver) (s : TxState) : Op → TxState
  | .exec stmt => (Tx.exec d s stmt).state
  | .query dst stmt => (Tx.query hf d s dst stmt).state
  | .commit => (Tx.commit d s).state
  | .rollback => (Tx.rollback d s).state
  | .mutate a v => { s with heap := updateA s.heap a v }

/-- State reached after a whole trace of steps. -/
def Tx.run (hf : Nat → String → Nat) (d : Driver) (s : TxState) :
    List Op → TxState
  | [] => s
  | op :: ops => Tx.run hf d (Tx.step hf d s op) ops

/-- Digit characters of strconv.FormatInt for base 32. -/
def digitChar32 (d : Nat) : Char :=
  "0123456789abcdefghijklmnopqrstuv".toList.getD d '0'

/-- Base 32 digit list of a natural number, most significant digit first,
as produced by strconv.FormatInt. -/
def natDigits32 (n : Nat) : List Char :=
  if _h : n < 32 then [digitChar32 n]
  else natDigits32 (n / 32) ++ [digitChar32 (n % 32)]
  decreasing_by
    exact Nat.div_lt_self (Nat.pos_of_ne_zero (by omega)) (by omega)

/-- strconv.FormatInt(i, 32): sign handling plus base 32 digits of the
absolute value. -/
def formatInt32 (i : Int) : String :=
  if i < 0 then "-" ++ ⟨natDigits32 i.natAbs⟩ else ⟨natDigits32 i.natAbs⟩

/-- Transaction id chosen by DB.Tx: the caller supplied tid when non
empty, otherwise strconv.FormatInt(time.Now().UnixNano(), 32) where now is
the UnixNano reading at creation. -/
def genTid (now : Int) (tid : String) : String :=
  if tid = "" then formatInt32 now else tid

/-- State of a fresh handle built by DB.Tx: the generated id, done unset,
the fresh maphash seed, an empty hash buffer, an empty cache, and the
initial caller heap. -/
def mkTx (now : Int) (tid : String) (seed : Nat)
    (heap : List (Nat × Nat)) : TxState :=
  { tid := genTid now tid
    done := false
    seed := seed
    hashBuf := ""
    cache := []
    heap := heap }

/-- Concrete hash function for evaluation: the sum of the seed and of the
length of the written text.  Any function of seed and text is a legitimate
instance of the maphash parameter. -/
def hfW : Nat → String → Nat := fun seed q => seed + q.length

/-- Concrete driver for evaluation: query text qa returns row set [10],
qbb returns [20], qscan returns an empty row set, any other text fails;
decoding an empty row set fails, otherwise the head of the row set is the
decoded value; commit and rollback succeed. -/
def dW : Driver :=
  { execRes := fun q => if q = "efail" then .error "exec boom" else .ok 1
    queryRes := fun q =>
      if q = "qa" then .ok [10]
      else if q = "qbb" then .ok [20]
      else if q = "qscan" then .ok []
      else .error "query boom"
    scanRes := fun r => if r = [] then .error "scan boom" else .ok (r.headD 0)
    commitRes := .ok ()
    rollbackRes := .ok () }

/-- Concrete fresh handle for evaluation: id t, seed 7, empty heap. -/
def s0W : TxState := mkTx 0 "t" 7 []

/-- Concrete handle whose cache already holds an entry for text qa under
key 9 = hfW 7 qa, referencing destination 0 which holds 10. -/
def sHitW : TxState := { s0W with cache := [(9, 0)], heap := [(0, 10)] }

/-! ## Helper lemmas -/

theorem lookupA_updateA_self (l : List (Nat × Nat)) (k v : Nat) :
    lookupA (updateA l k v) k = some v := by
  induction l with
  | nil => simp [updateA, lookupA]
  | cons p rest ih =>
      obtain ⟨a, b⟩ := p
      by_cases h : a = k
      · simp [updateA, lookupA, h]
      · simp [updateA, lookupA, h, ih]

theorem lookupA_updateA_ne (l : List (Nat × Nat)) (k k2 v : Nat)
    (h : k ≠ k2) : lookupA (updateA l k v) k2 = lookupA l k2 := by
  induction l with
  | nil => simp [updateA, lookupA, h]
  | cons p rest ih =>
      obtain ⟨a, b⟩ := p
      by_cases ha : a = k
      · subst ha; simp [updateA, lookupA, h]
      · simp [updateA, lookupA, ha, ih]

theorem exec_state (d : Driver) (s : TxState) (stmt : Stmt) :
    (Tx.exec d s stmt).state = s := by
  cases stmt with
  | error e => rfl
  | ok q =>
      simp only [Tx.exec]
      split <;> rfl

/-- Equation for Tx.Query on a cache hit. -/
theorem query_hit_eq (hf : Nat → String → Nat) (d : Driver) (s : TxState)
    (dst : Nat) (q : String) (a : Nat)
    (hhit : lookupA s.cache (fingerprint hf s q) = some a) :
    Tx.query hf d s dst (.ok q) =
      { state := { s with
          hashBuf := ""
          heap := updateA s.heap dst ((lookupA s.heap a).getD 0) }
        out := .ok ()
        logs := [⟨"db.tx.query.cached", s.tid, none, q⟩]
        calls := []
        mutex := [.lock, .unlock] } := by
  simp only [Tx.query]
  rw [hhit]

/-- Equation for Tx.Query on a cache miss whose driver call fails. -/
theorem query_driver_failure_eq (hf : Nat → String → Nat) (d : Driver)
    (s : TxState) (dst : Nat) (q e : String)
    (hmiss : lookupA s.cache (fingerprint hf s q) = none)
    (hq : d.queryRes q = .error e) :
    Tx.query hf d s dst (.ok q) =
      { state := { s with hashBuf := "" }
        out := .err e
        logs := []
        calls := [.query q]
        mutex := [.lock, .unlock] } := by
  simp only [Tx.query, hmiss, hq]

/-- Equation for Tx.Query on a cache miss whose decode step fails. -/
theorem query_scan_failure_eq (hf : Nat → String → Nat) (d : Driver)
    (s : TxState) (dst : Nat) (q e : String) (rows : List Nat)
    (hmiss : lookupA s.cache (fingerprint hf s q) = none)
    (hq : d.queryRes q = .ok rows)
    (hv : d.scanRes rows = .error e) :
    Tx.query hf d s dst (.ok q) =
      { state := { s with hashBuf := "" }
        out := .err e
        logs := []
        calls := [.query q]
        mutex := [.lock, .unlock] } := by
  simp only [Tx.query, hmiss, hq, hv]

/-- Equation for Tx.Query on a cache miss that decodes successfully. -/
theorem query_miss_success_eq (hf : Nat → String → Nat) (d : Driver)
    (s : TxState) (dst : Nat) (q : String) (rows : List Nat) (v : Nat)
    (hmiss : lookupA s.cache (fingerprint hf s q) = none)
    (hq : d.queryRes q = .ok rows)
    (hv : d.scanRes rows = .ok v) :
    Tx.query hf d s dst (.ok q) =
      { state := { s with
          hashBuf := ""
          heap := updateA s.heap dst v
          cache := updateA s.cache (fingerprint hf s q) dst }
        out := .ok ()
        logs := [⟨"db.tx.query.cache.add", s.tid, none, q⟩]
        calls := [.query q]
        mutex := [.lock, .unlock] } := by
  simp only [Tx.query, hmiss, hq, hv]

theorem commit_state_done (d : Driver) (s : TxState) :
    (Tx.commit d s).state.done = true := by
  unfold Tx.commit
  split <;> rfl

theorem commit_calls (d : Driver) (s : TxState) :
    (Tx.commit d s).calls = [DriverCall.commit] := by
  unfold Tx.commit
  split <;> rfl

theorem rollback_state_done (d : Driver) (s : TxState) :
    (Tx.rollback d s).state.done = true := by
  unfold Tx.rollback
  split
  · rename_i h
    exact h
  · split <;> rfl

/-- Equation for Tx.Rollback on an already terminated handle. -/
theorem rollback_of_done (d : Driver) (s : TxState) (h : s.done = true) :
    Tx.rollback d s =
      { state := s
        out := .ok ()
        logs := []
        calls := []
        mutex := [.lock, .unlock] } := by
  unfold Tx.rollback
  simp [h]

/-! ## Claim C3 -/

/-- Claim C3 counterexample: on a concrete handle a first Commit has
returned, yet a second Commit still issues a commit call to the
underlying transaction — Tx.Commit never consults the done flag, so the
claim that no subsequent Commit re-invokes the underlying commit is
false. -/
theorem commit_twice_reinvokes_commit_cex :
    (Tx.commit dW (Tx.commit dW s0W).state).calls = [DriverCall.commit] ∧
    (Tx.commit dW (Tx.commit dW s0W).state).calls ≠ [] := by
  constructor
  · rfl
  · intro h
    cases h

/-- Claim C3 amended: Commit marks the handle Terminated regardless of the
outcome of the underlying commit, and after Commit has returned a
subsequent Rollback returns nil without issuing any call to the underlying
transaction; a subsequent Commit, however, does re-invoke the underlying
commit. -/
theorem commit_terminates_and_rollback_never_reinvokes
    (d d2 : Driver) (s : TxState) :
    (Tx.commit d s).state.done = true ∧
    (Tx.rollback d2 (Tx.commit d s).state).out = .ok () ∧
    (Tx.rollback d2 (Tx.commit d s).state).calls = [] ∧
    (Tx.commit d2 (Tx.commit d s).state).calls = [DriverCall.commit] := by
  refine ⟨commit_state_done d s, ?_, ?_, commit_calls d2 _⟩
  · rw [rollback_of_done d2 _ (commit_state_done d s)]
  · rw [rollback_of_done d2 _ (commit_state_done d s)]

/-! ## Claim C5 -/

/-- Claim C5: the mutex discipline of the handle.  Exec on a statement
whose resolution fails performs lock, unlock, unlock: the explicit unlock
before the return is followed by the deferred unlock, which releases an
already released mutex — a fatal runtime error in Go — so the claim that
every exit path releases the mutex exactly once is violated by the code on
exactly this path; every other path of Exec, Query, Commit and Rollback
locks once and unlocks once. -/
theorem exec_build_failure_double_unlock (hf : Nat → String → Nat)
    (d : Driver) (s : TxState) (e q : String) (dst : Nat) (stmt : Stmt) :
    (Tx.exec d s (.error e)).mutex = [MutexEv.lock, .unlock, .unlock] ∧
    (Tx.exec d s (.error e)).out = .crash "sync: unlock of unlocked mutex" ∧
    (Tx.exec d s (.ok q)).mutex = [MutexEv.lock, .unlock] ∧
    (Tx.query hf d s dst stmt).mutex = [MutexEv.lock, .unlock] ∧
    (Tx.commit d s).mutex = [MutexEv.lock, .unlock] ∧
    (Tx.rollback d s).mutex = [MutexEv.lock, .unlock] := by
  refine ⟨rfl, rfl, ?_, ?_, ?_, ?_⟩
  · simp only [Tx.exec]
    split <;> rfl
  · cases stmt with
    | error e2 => rfl
    | ok q2 =>
        simp only [Tx.query]
        split
        · rfl
        · split
          · rfl
          · split <;> rfl
  · simp only [Tx.commit]
    split <;> rfl
  · simp only [Tx.rollback]
    split
    · rfl
    · split <;> rfl

/-! ## Claim C6 -/

/-- Claim C6: on every handle, a Rollback that follows a terminating
operation — a previous Rollback or a Commit — returns nil and never
invokes the underlying rollback again (no driver call at all), and it
leaves the state unchanged. -/
theorem rollback_second_call_noop (d d2 : Driver) (s : TxState) :
    (Tx.rollback d2 (Tx.rollback d s).state).out = .ok () ∧
    (Tx.rollback d2 (Tx.rollback d s).state).calls = [] ∧
    (Tx.rollback d2 (Tx.rollback d s).state).state = (Tx.rollback d s).state ∧
    (Tx.rollback d2 (Tx.commit d s).state).out = .ok () ∧
    (Tx.rollback d2 (Tx.commit d s).state).calls = [] := by
  rw [rollback_of_done d2 _ (rollback_state_done d s),
      rollback_of_done d2 _ (commit_state_done d s)]
  exact ⟨rfl, rfl, rfl, rfl, rfl⟩

/-! ## Claim C8 -/

/-- Claim C8: on a statement whose resolution fails, Query returns the
build failure with no driver call, no log beyond the build event, and the
state — cache included — exactly as before; Exec likewise issues no
driver call and leaves the state untouched, but instead of returning the
build failure it crashes: its explicit unlock plus the deferred unlock
release the mutex twice, a fatal runtime error, so Exec never returns
normally on this path. -/
theorem build_failure_no_driver_call (hf : Nat → String → Nat)
    (d : Driver) (s : TxState) (dst : Nat) (e : String) :
    (Tx.query hf d s dst (.error e)).out = .err e ∧
    (Tx.query hf d s dst (.error e)).calls = [] ∧
    (Tx.query hf d s dst (.error e)).state = s ∧
    (Tx.exec d s (.error e)).calls = [] ∧
    (Tx.exec d s (.error e)).state = s ∧
    (Tx.exec d s (.error e)).out = .crash "sync: unlock of unlocked mutex" :=
  ⟨rfl, rfl, rfl, rfl, rfl, rfl⟩

/-! ## Claim C7 -/

/-- Claim C7: a cache miss Query whose decode step fails returns the
decode failure and leaves the cache exactly as it was before the call: no
entry is stored under the computed fingerprint. -/
theorem query_decode_failure_cache_unchanged
    (hf : Nat → String → Nat) (d : Driver) (s : TxState) (dst : Nat)
    (q e : String) (rows : List Nat)
    (hmiss : lookupA s.cache (fingerprint hf s q) = none)
    (hq : d.queryRes q = .ok rows)
    (hv : d.scanRes rows = .error e) :
    (Tx.query hf d s dst (.ok q)).out = .err e ∧
    (Tx.query hf d s dst (.ok q)).state.cache = s.cache := by
  rw [query_scan_failure_eq hf d s dst q e rows hmiss hq hv]
  exact ⟨rfl, rfl⟩

/-- Claim C7 witness: the hypotheses of the theorem hold on the concrete
driver dW with query text qscan from the fresh handle s0W, and the
conclusion evaluates there. -/
theorem query_decode_failure_cache_unchanged_witness :
    lookupA s0W.cache (fingerprint hfW s0W "qscan") = none ∧
    dW.queryRes "qscan" = .ok [] ∧
    dW.scanRes [] = .error "scan boom" ∧
    ((Tx.query hfW dW s0W 0 (.ok "qscan")).out = .err "scan boom" ∧
     (Tx.query hfW dW s0W 0 (.ok "qscan")).state.cache = s0W.cache) :=
  ⟨rfl, rfl, rfl,
    query_decode_failure_cache_unchanged hfW dW s0W 0 "qscan" "scan boom" []
      rfl rfl rfl⟩

/-! ## Claim C1 -/

/-- Claim C1 counterexample: the statement with text qa is issued twice on
the same handle, with a different statement issued in between that reuses
the first destination (address 0).  The first qa call decodes 10 into its
destination, yet the second qa call populates its destination with 20: the
cache entry for qa references address 0, which the intervening query
overwrote.  The second call does perform zero driver calls, but its
decoded output is not identical to the output of the first call, so the
claim as stated is false. -/
theorem query_repeat_differs_cex :
    lookupA (Tx.run hfW dW s0W [.query 0 (.ok "qa")]).heap 0 = some 10 ∧
    lookupA (Tx.run hfW dW s0W
      [.query 0 (.ok "qa"), .query 0 (.ok "qbb"),
       .query 1 (.ok "qa")]).heap 1 = some 20 ∧
    (Tx.query hfW dW
      (Tx.run hfW dW s0W [.query 0 (.ok "qa"), .query 0 (.ok "qbb")])
      1 (.ok "qa")).calls = [] := by
  decide

/-- Claim C1 amended: when the destination of the first call is not
overwritten between the two calls — here the calls are consecutive — a
second Query with the same resolved text populates its destination with
the same decoded value as the first call and issues zero driver calls: the
cache hit path returns before any call to the underlying transaction.  In
general the second call still issues zero driver calls but copies whatever
the first destination currently holds. -/
theorem query_repeat_cached_no_roundtrip
    (hf : Nat → String → Nat) (d : Driver) (s : TxState)
    (dst1 dst2 : Nat) (q : String) (rows : List Nat) (v : Nat)
    (hbuf : s.hashBuf = "")
    (hmiss : lookupA s.cache (fingerprint hf s q) = none)
    (hq : d.queryRes q = .ok rows)
    (hv : d.scanRes rows = .ok v) :
    (Tx.query hf d s dst1 (.ok q)).out = .ok () ∧
    lookupA (Tx.query hf d s dst1 (.ok q)).state.heap dst1 = some v ∧
    (Tx.query hf d (Tx.query hf d s dst1 (.ok q)).state dst2 (.ok q)).out
      = .ok () ∧
    lookupA (Tx.query hf d (Tx.query hf d s dst1 (.ok q)).state dst2
      (.ok q)).state.heap dst2 = some v ∧
    (Tx.query hf d (Tx.query hf d s dst1 (.ok q)).state dst2 (.ok q)).calls
      = [] := by
  rw [query_miss_success_eq hf d s dst1 q rows v hmiss hq hv]
  have hfp : fingerprint hf
      { s with hashBuf := ""
               heap := updateA s.heap dst1 v
               cache := updateA s.cache (fingerprint hf s q) dst1 } q
      = fingerprint hf s q := by
    simp [fingerprint, hbuf]
  have hhit : lookupA (updateA s.cache (fingerprint hf s q) dst1)
      (fingerprint hf s q) = some dst1 := lookupA_updateA_self _ _ _
  rw [query_hit_eq hf d _ dst2 q dst1 (by rw [hfp]; exact hhit)]
  refine ⟨rfl, lookupA_updateA_self _ _ _, rfl, ?_, rfl⟩
  have : lookupA (updateA s.heap dst1 v) dst1 = some v :=
    lookupA_updateA_self _ _ _
  simp only [this, Option.getD_some]
  exact lookupA_updateA_self _ _ _

/-- Claim C1 witness: the amended theorem applied on the concrete driver
dW, text qa, destinations 0 and 1 from the fresh handle s0W. -/
theorem query_repeat_cached_no_roundtrip_witness :
    s0W.hashBuf = "" ∧
    lookupA s0W.cache (fingerprint hfW s0W "qa") = none ∧
    dW.queryRes "qa" = .ok [10] ∧
    dW.scanRes [10] = .ok 10 ∧
    lookupA (Tx.query hfW dW (Tx.query hfW dW s0W 0 (.ok "qa")).state 1
      (.ok "qa")).state.heap 1 = some 10 ∧
    (Tx.query hfW dW (Tx.query hfW dW s0W 0 (.ok "qa")).state 1
      (.ok "qa")).calls = [] :=
  ⟨rfl, rfl, rfl, rfl,
    (query_repeat_cached_no_roundtrip hfW dW s0W 0 1 "qa" [10] 10
      rfl rfl rfl rfl).2.2.2.1,
    (query_repeat_cached_no_roundtrip hfW dW s0W 0 1 "qa" [10] 10
      rfl rfl rfl rfl).2.2.2.2⟩

/-! ## Claim C4 -/

/-- Claim C4 counterexample: text qa is queried into address 0 (a miss
that stores the entry), then queried again into address 0 — a cache hit
whose destination is address 0.  The caller then mutates that destination
to 99, and a later Query for the same text observes 99 instead of the
decoded 10: the copy made on a hit is not deep enough to insulate the
cached value from caller mutation of the destination, because the cache
holds a reference to address 0 itself. -/
theorem cache_hit_destination_mutation_cex :
    lookupA (Tx.run hfW dW s0W [.query 0 (.ok "qa")]).heap 0 = some 10 ∧
    lookupA (Tx.run hfW dW s0W
      [.query 0 (.ok "qa"), .query 0 (.ok "qa"), .mutate 0 99,
       .query 1 (.ok "qa")]).heap 1 = some 99 := by
  decide

/-- Claim C4 amended: the cache stores a reference to the destination of
the call that populated the entry, not a copy of the decoded value: the
stored reflect.Value is the address of that destination, and a cache hit
copies whatever that address currently holds.  A caller mutation of the
populating destination is therefore observed by every later Query for the
same text. -/
theorem query_cache_stores_reference
    (hf : Nat → String → Nat) (d : Driver) (s : TxState)
    (dst1 dst2 : Nat) (q : String) (rows : List Nat) (v w : Nat)
    (hbuf : s.hashBuf = "")
    (hmiss : lookupA s.cache (fingerprint hf s q) = none)
    (hq : d.queryRes q = .ok rows)
    (hv : d.scanRes rows = .ok v) :
    lookupA (Tx.query hf d s dst1 (.ok q)).state.cache (fingerprint hf s q)
      = some dst1 ∧
    (Tx.query hf d (Tx.step hf d (Tx.query hf d s dst1 (.ok q)).state
      (.mutate dst1 w)) dst2 (.ok q)).out = .ok () ∧
    lookupA (Tx.query hf d (Tx.step hf d (Tx.query hf d s dst1 (.ok q)).state
      (.mutate dst1 w)) dst2 (.ok q)).state.heap dst2 = some w := by
  rw [query_miss_success_eq hf d s dst1 q rows v hmiss hq hv]
  simp only [Tx.step]
  have hfp : fingerprint hf
      { s with hashBuf := ""
               heap := updateA (updateA s.heap dst1 v) dst1 w
               cache := updateA s.cache (fingerprint hf s q) dst1 } q
      = fingerprint hf s q := by
    simp [fingerprint, hbuf]
  have hhit : lookupA (updateA s.cache (fingerprint hf s q) dst1)
      (fingerprint hf s q) = some dst1 := lookupA_updateA_self _ _ _
  rw [query_hit_eq hf d _ dst2 q dst1 (by rw [hfp]; exact hhit)]
  refine ⟨lookupA_updateA_self _ _ _, rfl, ?_⟩
  have hw : lookupA (updateA (updateA s.heap dst1 v) dst1 w) dst1 = some w :=
    lookupA_updateA_self _ _ _
  simp only [hw, Option.getD_some]
  exact lookupA_updateA_self _ _ _

/-- Claim C4 witness: the amended theorem applied on the concrete driver
dW, text qa, destinations 0 and 1, mutated value 99, from the fresh
handle s0W. -/
theorem query_cache_stores_reference_witness :
    s0W.hashBuf = "" ∧
    lookupA s0W.cache (fingerprint hfW s0W "qa") = none ∧
    dW.queryRes "qa" = .ok [10] ∧
    dW.scanRes [10] = .ok 10 ∧
    lookupA (Tx.query hfW dW (Tx.step hfW dW
      (Tx.query hfW dW s0W 0 (.ok "qa")).state (.mutate 0 99)) 1
      (.ok "qa")).state.heap 1 = some 99 :=
  ⟨rfl, rfl, rfl, rfl,
    (query_cache_stores_reference hfW dW s0W 0 1 "qa" [10] 10 99
      rfl rfl rfl rfl).2.2⟩

/-! ## Claim C2 -/

/-- Claim C2 counterexample: a Query whose call to the underlying
transaction fails returns the failure having emitted no log event at all,
so the claim that every failure return of Query is preceded by exactly one
log call is false. -/
theorem query_driver_failure_unlogged_cex :
    (Tx.query hfW dW s0W 0 (.ok "boom")).out = .err "query boom" ∧
    (Tx.query hfW dW s0W 0 (.ok "boom")).logs = [] := by
  decide

/-- Claim C2 amended: Exec on a resolved statement, Commit, and Rollback
on a live handle emit exactly one event carrying the error value of the
operation; Query emits exactly one event on build failure, on a cache hit
and on full success; but Query returns driver failures and decode
failures with no event at all, Rollback after a terminating operation
returns with no event, and Exec on a statement that fails to resolve
crashes with no event. -/
theorem tx_log_event_cases (hf : Nat → String → Nat) (d : Driver)
    (s : TxState) (dst a : Nat) (qx qh qf qs qc eb : String)
    (rowsS rowsC : List Nat) (v : Nat) :
    (Tx.exec d s (.ok qx)).logs =
      [⟨"db.tx.exec", s.tid, (Tx.exec d s (.ok qx)).out.errOf, qx⟩] ∧
    (Tx.exec d s (.error eb)).logs = [] ∧
    (Tx.query hf d s dst (.error eb)).logs =
      [⟨"db.tx.query.build", s.tid, some eb, stmtRepr (.error eb)⟩] ∧
    (lookupA s.cache (fingerprint hf s qh) = some a →
      (Tx.query hf d s dst (.ok qh)).logs =
        [⟨"db.tx.query.cached", s.tid, none, qh⟩]) ∧
    (lookupA s.cache (fingerprint hf s qf) = none →
      (∃ e, d.queryRes qf = .error e) →
      (Tx.query hf d s dst (.ok qf)).logs = []) ∧
    (lookupA s.cache (fingerprint hf s qs) = none →
      d.queryRes qs = .ok rowsS →
      (∃ e, d.scanRes rowsS = .error e) →
      (Tx.query hf d s dst (.ok qs)).logs = []) ∧
    (lookupA s.cache (fingerprint hf s qc) = none →
      d.queryRes qc = .ok rowsC → d.scanRes rowsC = .ok v →
      (Tx.query hf d s dst (.ok qc)).logs =
        [⟨"db.tx.query.cache.add", s.tid, none, qc⟩]) ∧
    (Tx.commit d s).logs =
      [⟨"db.tx.commit", s.tid, (Tx.commit d s).out.errOf, ""⟩] ∧
    (s.done = false →
      (Tx.rollback d s).logs =
        [⟨"db.tx.rollback", s.tid, (Tx.rollback d s).out.errOf, ""⟩]) ∧
    (Tx.rollback d (Tx.commit d s).state).logs = [] := by
  refine ⟨?_, rfl, rfl, ?_, ?_, ?_, ?_, ?_, ?_, ?_⟩
  · simp only [Tx.exec]
    split <;> rfl
  · intro hhit
    rw [query_hit_eq hf d s dst qh a hhit]
  · intro hmiss he
    obtain ⟨e, he⟩ := he
    rw [query_driver_failure_eq hf d s dst qf e hmiss he]
  · intro hmiss hq he
    obtain ⟨e, he⟩ := he
    rw [query_scan_failure_eq hf d s dst qs e rowsS hmiss hq he]
  · intro hmiss hq hv
    rw [query_miss_success_eq hf d s dst qc rowsC v hmiss hq hv]
  · simp only [Tx.commit]
    split <;> rfl
  · intro hlive
    simp only [Tx.rollback, hlive]
    split
    · rename_i h2
      cases h2
    · split <;> rfl
  · rw [rollback_of_done d _ (commit_state_done d s)]

/-- Claim C2 witness: the amended theorem applied on the concrete driver
dW from the handle sHitW, whose cache already holds the entry for text qa;
text boom makes the driver call fail, text qscan makes the decode step
fail, text qbb succeeds end to end. -/
theorem tx_log_event_cases_witness :
    (lookupA sHitW.cache (fingerprint hfW sHitW "qa") = some 0 ∧
     lookupA sHitW.cache (fingerprint hfW sHitW "boom") = none ∧
     dW.queryRes "boom" = .error "query boom" ∧
     lookupA sHitW.cache (fingerprint hfW sHitW "qscan") = none ∧
     dW.queryRes "qscan" = .ok [] ∧
     dW.scanRes [] = .error "scan boom" ∧
     lookupA sHitW.cache (fingerprint hfW sHitW "qbb") = none ∧
     dW.queryRes "qbb" = .ok [20] ∧
     dW.scanRes [20] = .ok 20 ∧
     sHitW.done = false) ∧
    ((Tx.query hfW dW sHitW 3 (.ok "qa")).logs =
      [⟨"db.tx.query.cached", sHitW.tid, none, "qa"⟩] ∧
     (Tx.query hfW dW sHitW 3 (.ok "boom")).logs = [] ∧
     (Tx.query hfW dW sHitW 3 (.ok "qscan")).logs = [] ∧
     (Tx.query hfW dW sHitW 3 (.ok "qbb")).logs =
      [⟨"db.tx.query.cache.add", sHitW.tid, none, "qbb"⟩] ∧
     (Tx.rollback dW sHitW).logs =
      [⟨"db.tx.rollback", sHitW.tid, (Tx.rollback dW sHitW).out.errOf, ""⟩]) := by
  have h := tx_log_event_cases hfW dW sHitW 3 0 "qx" "qa" "boom" "qscan"
    "qbb" "eb" [] [20] 20
  exact ⟨⟨rfl, rfl, rfl, rfl, rfl, rfl, rfl, rfl, rfl, rfl⟩,
    h.2.2.2.1 rfl,
    h.2.2.2.2.1 rfl ⟨"query boom", rfl⟩,
    h.2.2.2.2.2.1 rfl rfl ⟨"scan boom", rfl⟩,
    h.2.2.2.2.2.2.1 rfl rfl rfl,
    h.2.2.2.2.2.2.2.2.1 rfl⟩

/-! ## Claim C9 -/

theorem string_empty_append (q : String) : "" ++ q = q := rfl

theorem query_state_hash (hf : Nat → String → Nat) (d : Driver)
    (s : TxState) (dst : Nat) (stmt : Stmt) :
    (Tx.query hf d s dst stmt).state.seed = s.seed ∧
    ((Tx.query hf d s dst stmt).state.hashBuf = s.hashBuf ∨
     (Tx.query hf d s dst stmt).state.hashBuf = "") := by
  cases stmt with
  | error e => exact ⟨rfl, .inl rfl⟩
  | ok q =>
      simp only [Tx.query]
      split
      · exact ⟨rfl, .inr rfl⟩
      · split
        · exact ⟨rfl, .inr rfl⟩
        · split <;> exact ⟨rfl, .inr rfl⟩

theorem commit_state_hash (d : Driver) (s : TxState) :
    (Tx.commit d s).state.seed = s.seed ∧
    (Tx.commit d s).state.hashBuf = s.hashBuf := by
  simp only [Tx.commit]
  split <;> exact ⟨rfl, rfl⟩

theorem rollback_state_hash (d : Driver) (s : TxState) :
    (Tx.rollback d s).state.seed = s.seed ∧
    (Tx.rollback d s).state.hashBuf = s.hashBuf := by
  simp only [Tx.rollback]
  split
  · exact ⟨rfl, rfl⟩
  · split <;> exact ⟨rfl, rfl⟩

theorem step_hash_state (hf : Nat → String → Nat) (d : Driver)
    (s : TxState) (op : Op) (h : s.hashBuf = "") :
    (Tx.step hf d s op).hashBuf = "" ∧ (Tx.step hf d s op).seed = s.seed := by
  cases op with
  | exec stmt =>
      simp only [Tx.step, exec_state]
      exact ⟨h, trivial⟩
  | query dst stmt =>
      simp only [Tx.step]
      have hq := query_state_hash hf d s dst stmt
      rcases hq.2 with h2 | h2
      · exact ⟨h2.trans h, hq.1⟩
      · exact ⟨h2, hq.1⟩
  | commit =>
      simp only [Tx.step]
      exact ⟨(commit_state_hash d s).2.trans h, (commit_state_hash d s).1⟩
  | rollback =>
      simp only [Tx.step]
      exact ⟨(rollback_state_hash d s).2.trans h, (rollback_state_hash d s).1⟩
  | mutate a v =>
      simp only [Tx.step]
      exact ⟨h, trivial⟩

theorem run_hash_state (hf : Nat → String → Nat) (d : Driver)
    (ops : List Op) : ∀ s : TxState, s.hashBuf = "" →
    (Tx.run hf d s ops).hashBuf = "" ∧ (Tx.run hf d s ops).seed = s.seed := by
  induction ops with
  | nil => exact fun s h => ⟨h, rfl⟩
  | cons op ops ih =>
      intro s h
      have hstep := step_hash_state hf d s op h
      have hrest := ih (Tx.step hf d s op) hstep.1
      exact ⟨hrest.1, hrest.2.trans hstep.2⟩

/-- Claim C9: on a fresh handle the fingerprint computed for a query text
q is hf seed q after any trace of operations whatsoever: the seed is fixed
for the lifetime of the handle and the hash state is reset after each use,
so the buffer is empty again whenever a fingerprint is taken, and two
Query calls with identical query text always compute the same cache key no
matter which queries were fingerprinted in between. -/
theorem fingerprint_stable_across_trace (hf : Nat → String → Nat)
    (d : Driver) (now : Int) (tid : String) (seed : Nat)
    (heap : List (Nat × Nat)) (ops1 ops2 : List Op) (q : String) :
    fingerprint hf (Tx.run hf d (mkTx now tid seed heap) ops1) q
      = hf seed q ∧
    fingerprint hf (Tx.run hf d (mkTx now tid seed heap) ops1) q
      = fingerprint hf (Tx.run hf d (mkTx now tid seed heap) ops2) q := by
  have base : (mkTx now tid seed heap).hashBuf = "" := rfl
  have h1 := run_hash_state hf d ops1 (mkTx now tid seed heap) base
  have h2 := run_hash_state hf d ops2 (mkTx now tid seed heap) base
  have e1 : fingerprint hf (Tx.run hf d (mkTx now tid seed heap) ops1) q
      = hf seed q := by
    unfold fingerprint
    rw [h1.1, h1.2, string_empty_append]
    rfl
  have e2 : fingerprint hf (Tx.run hf d (mkTx now tid seed heap) ops2) q
      = hf seed q := by
    unfold fingerprint
    rw [h2.1, h2.2, string_empty_append]
    rfl
  exact ⟨e1, e1.trans e2.symm⟩

/-! ## Claim C10 -/

/-- Position of a character in the digit table, used to read a base 32
digit back. -/
def findIdx32 : List Char → Char → Nat
  | [], _ => 0
  | x :: xs, c => if x = c then 0 else findIdx32 xs c + 1

/-- Value of a base 32 digit character. -/
def digitVal32 (c : Char) : Nat :=
  findIdx32 "0123456789abcdefghijklmnopqrstuv".toList c

/-- Number denoted by a base 32 digit list, most significant first. -/
def ofDigits32 (l : List Char) : Nat :=
  l.foldl (fun a c => a * 32 + digitVal32 c) 0

theorem digitVal32_digitChar32 (d : Nat) (h : d < 32) :
    digitVal32 (digitChar32 d) = d := by
  interval_cases d <;> rfl

theorem natDigits32_foldl (n : Nat) : ∀ a : Nat,
    (natDigits32 n).foldl (fun x c => x * 32 + digitVal32 c) a
      = a * 32 ^ (natDigits32 n).length + n := by
  induction n using Nat.strong_induction_on with
  | _ n ih =>
    intro a
    rw [natDigits32]
    split
    · rename_i h
      simp [List.foldl, digitVal32_digitChar32 n h]
    · rename_i h
      have hdiv : n / 32 < n :=
        Nat.div_lt_self (Nat.pos_of_ne_zero (by omega)) (by omega)
      rw [List.foldl_append, ih (n / 32) hdiv a]
      have hmod : n % 32 < 32 := Nat.mod_lt _ (by omega)
      simp only [List.foldl, digitVal32_digitChar32 (n % 32) hmod,
        List.length_append, List.length_cons, List.length_nil]
      calc (a * 32 ^ (natDigits32 (n / 32)).length + n / 32) * 32 + n % 32
          = a * (32 ^ (natDigits32 (n / 32)).length * 32)
              + (32 * (n / 32) + n % 32) := by ring
        _ = a * 32 ^ ((natDigits32 (n / 32)).length + 1) + n := by
              rw [pow_succ, Nat.div_add_mod]

theorem ofDigits32_natDigits32 (n : Nat) : ofDigits32 (natDigits32 n) = n := by
  have h := natDigits32_foldl n 0
  simpa [ofDigits32] using h

theorem natDigits32_injective (m n : Nat)
    (h : natDigits32 m = natDigits32 n) : m = n := by
  have hm := ofDigits32_natDigits32 m
  rw [h, ofDigits32_natDigits32] at hm
  exact hm.symm

theorem natDigits32_ne_nil (n : Nat) : natDigits32 n ≠ [] := by
  rw [natDigits32]
  split
  · simp
  · simp

/-- Claim C10: created with an empty caller supplied id, the handle gets a
generated id that is a non empty string, and two handles created at
distinct high resolution timestamp readings get distinct ids. -/
theorem gen_tid_nonempty_and_unique (t1 t2 : Int)
    (h1 : 0 ≤ t1) (h2 : 0 ≤ t2) (hne : t1 ≠ t2) :
    genTid t1 "" ≠ "" ∧ genTid t1 "" ≠ genTid t2 "" := by
  have hfmt : ∀ t : Int, 0 ≤ t → genTid t "" = ⟨natDigits32 t.natAbs⟩ := by
    intro t ht
    unfold genTid formatInt32
    rw [if_pos rfl, if_neg (by omega)]
  rw [hfmt t1 h1, hfmt t2 h2]
  constructor
  · intro hc
    exact natDigits32_ne_nil t1.natAbs (congrArg String.data hc)
  · intro hc
    have hd : natDigits32 t1.natAbs = natDigits32 t2.natAbs :=
      congrArg String.data hc
    have : t1.natAbs = t2.natAbs := natDigits32_injective _ _ hd
    omega

/-- Claim C10 witness: the theorem applied at the concrete timestamp
readings 5 and 6. -/
theorem gen_tid_nonempty_and_unique_witness :
    (0 : Int) ≤ 5 ∧ (0 : Int) ≤ 6 ∧ (5 : Int) ≠ 6 ∧
    (genTid 5 "" ≠ "" ∧ genTid 5 "" ≠ genTid 6 "") :=
  ⟨by decide, by decide, by decide,
    gen_tid_nonempty_and_unique 5 6 (by decide) (by decide) (by decide)⟩

end DbTx
